import Mathlib

/-!
Verification of the patent-monitor core (matcher, deadline model, tracking
store, scan orchestrator, analyzer response normalization) against its
natural-language specification.  Python strings are modelled as lists of
characters, `datetime.date` as a year/month/day record, the SQLite store as
in-memory lists of rows, and fallible Python code as `Except`-valued
functions.  Wall-clock data (timestamps, durations) is threaded as explicit
parameters or omitted where no claim depends on it.
-/

namespace PatentMonitor

/-- Python strings, modelled as lists of characters. -/
abbrev Str := List Char

/-- Coerce a Lean string literal to the model type. -/
def str (s : String) : Str := s.toList

/-- Python `str.isspace` characters relevant to `str.strip()`. -/
def pyIsSpace (c : Char) : Bool :=
  c = ' ' || c = '\t' || c = '\n' || c = '\r' || c = '\x0b' || c = '\x0c'

/-- Python `s.strip()`: drop leading and trailing whitespace. -/
def pyStrip (s : Str) : Str :=
  ((s.dropWhile pyIsSpace).reverse.dropWhile pyIsSpace).reverse

/-- Python `s.upper()` (ASCII-faithful). -/
def pyUpper (s : Str) : Str := s.map Char.toUpper

/-- Python `s.lower()` (ASCII-faithful). -/
def pyLower (s : Str) : Str := s.map Char.toLower

/-- Python `s.replace(" ", "")`: remove every space character. -/
def removeSpaces (s : Str) : Str := s.filter (fun c => c ≠ ' ')

/-- Python `needle in hay` / `re.search(re.escape(needle), hay)`:
substring containment. -/
def containsSubstring (hay needle : Str) : Bool :=
  (List.range (hay.length + 1)).any (fun i => needle.isPrefixOf (hay.drop i))

/-! ## Classification matcher (`matcher.py`) -/

/-- `PatentMatcher._class_matches` from `matcher.py`: the guard tests the raw
strings for emptiness, then both sides are normalized (strip, upper, remove
spaces), the classification is split on `';'`, and each value is tested with
`startswith`. -/
def classMatches (patent_classification target_class : Str) : Bool :=
  if patent_classification.isEmpty || target_class.isEmpty then false
  else
    let target_normalized := removeSpaces (pyUpper (pyStrip target_class))
    let classifications :=
      (patent_classification.splitOn ';').map (fun c => removeSpaces (pyUpper (pyStrip c)))
    classifications.any (fun cls => target_normalized.isPrefixOf cls)

/-! ## Dates (`datetime.date` and `dateutil.relativedelta`), from `models.py` -/

/-- A `datetime.date`; Python only constructs valid calendar dates, so
validity side conditions appear as hypotheses where a theorem needs them. -/
structure Date where
  year : Int
  month : Int
  day : Int
deriving DecidableEq, Repr

/-- Gregorian leap-year rule (`calendar.isleap`). -/
def isLeap (y : Int) : Bool := y % 4 = 0 && (y % 100 ≠ 0 || y % 400 = 0)

/-- `calendar.monthrange(y, m)[1]`: number of days in a month. -/
def daysInMonth (y m : Int) : Int :=
  if m = 2 then (if isLeap y then 29 else 28)
  else if m = 4 ∨ m = 6 ∨ m = 9 ∨ m = 11 then 30
  else 31

/-- `relativedelta._set_months`: normalize a total month count into
`(years, months)` with `|months| ≤ 11`, by sign-magnitude divmod. -/
def setMonths (months : Int) : Int × Int :=
  if 11 < months.natAbs then
    let s : Int := if months < 0 then -1 else 1
    (s * (months.natAbs / 12 : ℕ), s * (months.natAbs % 12 : ℕ))
  else (0, months)

/-- `relativedelta.__radd__` restricted to year/month components: add the
offsets, renormalize the month into 1..12, and clamp the day to the last
valid day of the target month. -/
def radd (d : Date) (years months : Int) : Date :=
  let y := d.year + years
  let m := d.month + months
  if 12 < m then ⟨y + 1, m - 12, min d.day (daysInMonth (y + 1) (m - 12))⟩
  else if m < 1 then ⟨y - 1, m + 12, min d.day (daysInMonth (y - 1) (m + 12))⟩
  else ⟨y, m, min d.day (daysInMonth y m)⟩

/-- `d + relativedelta(months=n)`: `_set_months` followed by `__radd__`. -/
def addMonths (d : Date) (months : Int) : Date :=
  let ym := setMonths months
  radd d ym.1 ym.2

/-- Days strictly before month `m` in year `y`. -/
def monthOffset (y m : Int) : Int :=
  let base : Int :=
    if m ≤ 1 then 0 else if m = 2 then 31 else if m = 3 then 59
    else if m = 4 then 90 else if m = 5 then 120 else if m = 6 then 151
    else if m = 7 then 181 else if m = 8 then 212 else if m = 9 then 243
    else if m = 10 then 273 else if m = 11 then 304 else 334
  if 2 < m ∧ isLeap y then base + 1 else base

/-- `date.toordinal()` (proleptic Gregorian, defined for year ≥ 1); used for
the day component of date subtraction. -/
def toOrdinal (d : Date) : Int :=
  365 * (d.year - 1) + (d.year - 1) / 4 - (d.year - 1) / 100 + (d.year - 1) / 400
    + monthOffset d.year d.month + d.day

/-- `date.__lt__`: lexicographic comparison. -/
def dateLtP (a b : Date) : Prop :=
  a.year < b.year ∨ (a.year = b.year ∧ (a.month < b.month ∨ (a.month = b.month ∧ a.day < b.day)))

instance (a b : Date) : Decidable (dateLtP a b) := by unfold dateLtP; infer_instance

/-- The total month count found by `relativedelta(dt1, dt2)`: the raw
year*12+month difference, corrected so that `dt2` shifted by it does not
overshoot `dt1`.  dateutil corrects with a loop; for valid calendar dates
the loop body runs at most once, so a single conditional correction is
exact (the initial estimate lands in `dt1`'s month, and moving one month
further can no longer overshoot). -/
def rdTotalMonths (dt1 dt2 : Date) : Int :=
  let months := (dt1.year - dt2.year) * 12 + (dt1.month - dt2.month)
  let dtm := addMonths dt2 months
  if dateLtP dt1 dt2 then (if dateLtP dtm dt1 then months + 1 else months)
  else (if dateLtP dt1 dtm then months - 1 else months)

/-- The `(years, months, days)` components of a `relativedelta` between two
dates. -/
structure RelDelta where
  years : Int
  months : Int
  days : Int
deriving DecidableEq, Repr

/-- `relativedelta(dt1, dt2)` for plain dates: total months, normalized into
years/months, with the residual day difference. -/
def relativedelta (dt1 dt2 : Date) : RelDelta :=
  let M := rdTotalMonths dt1 dt2
  let ym := setMonths M
  { years := ym.1, months := ym.2,
    days := toOrdinal dt1 - toOrdinal (addMonths dt2 M) }

/-- `Patent.pgr_deadline`: `issue_date + relativedelta(months=9)`. -/
def pgrDeadline (issue_date : Date) : Date := addMonths issue_date 9

/-- `Patent.pgr_months_remaining` with "today" made explicit:
`delta.months + delta.days / 30.0` for `delta = relativedelta(deadline,
today)` — note the `years` component of the delta is not used. -/
def pgrMonthsRemaining (issue_date today : Date) : ℚ :=
  let delta := relativedelta (pgrDeadline issue_date) today
  (delta.months : ℚ) + (delta.days : ℚ) / 30

/-- `Patent.urgency` with "today" made explicit. -/
def urgency (issue_date today : Date) : String :=
  let remaining := pgrMonthsRemaining issue_date today
  if remaining ≤ 0 then "expired"
  else if remaining < 3 then "high"
  else if remaining < 6 then "medium"
  else "low"

/-- From the spec's words (for comparison with `pgrMonthsRemaining`): the
signed calendar month delta from `today` to the deadline — all months
counted, years included — plus a fractional day component of
day-delta / 30. -/
def specMonthsRemaining (deadline today : Date) : ℚ :=
  let M := rdTotalMonths deadline today
  (M : ℚ) + ((toOrdinal deadline - toOrdinal (addMonths today M) : Int) : ℚ) / 30

/-! ## Data model (`models.py`, `config.py`) -/

/-- The `Patent` dataclass.  `first_seen` / `notified_at` timestamps are
opaque clock values. -/
structure Patent where
  patent_number : Str
  title : Str
  issue_date : Date
  application_number : Str := []
  filing_date : Option Date := none
  inventors : List Str := []
  assignee : Str := []
  classification_us : Str := []
  classification_cpc : Str := []
  classification_locarno : Str := []
  image_url : Option Str := none
  abstract : Option Str := none
  status : Str := str "new"
  first_seen : Nat := 0
  notified_at : Option Nat := none
  notes : Option Str := none
deriving DecidableEq, Repr

/-- `SearchCriteriaConfig` from `config.py`. -/
structure SearchCriteriaConfig where
  name : Str := []
  us_classes : List Str := []
  cpc_classes : List Str := []
  keywords : List Str := []
  assignee_exclude : List Str := []
deriving DecidableEq, Repr

/-- `SourcesConfig` from `config.py`: per-source enable flags. -/
structure SourcesConfig where
  uspto_api : Bool := true
  official_gazette : Bool := true
deriving DecidableEq, Repr

/-! ## Matcher on patents (`matcher.py`) -/

/-- `PatentMatcher._keyword_matches`: case-insensitive substring search over
the title and, when present and non-empty, the abstract. -/
def keyword_matches (p : Patent) (keyword : Str) : Bool :=
  let keyword_lower := pyLower keyword
  (!p.title.isEmpty && containsSubstring (pyLower p.title) keyword_lower) ||
  (match p.abstract with
   | some a => !a.isEmpty && containsSubstring (pyLower a) keyword_lower
   | none => false)

/-- `PatentMatcher._is_excluded`: any configured exclude substring occurring
case-insensitively in the assignee suppresses the rule. -/
def is_excluded (p : Patent) (c : SearchCriteriaConfig) : Bool :=
  if c.assignee_exclude.isEmpty || p.assignee.isEmpty then false
  else c.assignee_exclude.any (fun excluded =>
    containsSubstring (pyLower p.assignee) (pyLower excluded))

/-- The single-quote character used in keyword match descriptions. -/
def sq : Str := ['\x27']

/-- Match description for a US-classification hit. -/
def usDesc (us_class name : Str) : Str :=
  str "US class: " ++ us_class ++ str " (criteria: " ++ name ++ str ")"

/-- Match description for a CPC-classification hit. -/
def cpcDesc (cpc_class name : Str) : Str :=
  str "CPC class: " ++ cpc_class ++ str " (criteria: " ++ name ++ str ")"

/-- Match description for a keyword hit. -/
def kwDesc (keyword name : Str) : Str :=
  str "Keyword: " ++ sq ++ keyword ++ sq ++ str " (criteria: " ++ name ++ str ")"

/-- `PatentMatcher._match_single`: exclusion short-circuit, then US class,
CPC class and keyword checks, recording a description per hit. -/
def match_single (p : Patent) (c : SearchCriteriaConfig) : List Str :=
  if is_excluded p c then []
  else
    (c.us_classes.filterMap (fun uc =>
      if classMatches p.classification_us uc then some (usDesc uc c.name) else none)) ++
    (c.cpc_classes.filterMap (fun cc =>
      if classMatches p.classification_cpc cc then some (cpcDesc cc c.name) else none)) ++
    (c.keywords.filterMap (fun kw =>
      if keyword_matches p kw then some (kwDesc kw c.name) else none))

/-- `PatentMatcher.match`: union of the per-rule matches, in rule order
(`extend` of an empty list is a no-op, so plain append is exact). -/
def matcher_match (criteria_list : List SearchCriteriaConfig) (p : Patent) : List Str :=
  criteria_list.foldl (fun all_matches c => all_matches ++ match_single p c) []

/-! ## Tracking store (`db.py`) -/

/-- A row of the `patents` table: the schema columns that the store writes
(the autoincrement `id` is omitted; `ai_analysis` is the migration-added
column).  Dates and timestamps are stored as values rather than ISO strings;
`isoformat` is injective so nothing is lost.  Note the schema includes a
`pgr_deadline TEXT NOT NULL` column. -/
structure PatentRow where
  patent_number : Str
  application_number : Str
  title : Str
  issue_date : Date
  filing_date : Option Date
  inventors : List Str
  assignee : Str
  classification_us : Str
  classification_cpc : Str
  classification_locarno : Str
  image_url : Option Str
  abstract : Option Str
  pgr_deadline : Date
  status : Str
  matched_criteria : Option (List Str)
  first_seen_at : Nat
  notified_at : Option Nat
  notes : Option Str
  ai_analysis : Option Str
deriving DecidableEq, Repr

/-- A row of the `search_runs` table.  `run_at`, `query_params` and
`duration_seconds` are wall-clock or serialization data no claim depends on
and are omitted. -/
structure SearchRun where
  source : Str
  results_count : Nat := 0
  new_matches_count : Nat := 0
  error : Option Str := none
deriving DecidableEq, Repr

/-- The durable state owned by `Database`. -/
structure Db where
  patents : List PatentRow
  search_runs : List SearchRun
deriving DecidableEq, Repr

def emptyDb : Db := ⟨[], []⟩

/-- `Database.patent_exists`. -/
def patent_exists (db : Db) (patent_number : Str) : Bool :=
  db.patents.any (fun r => r.patent_number == patent_number)

/-- The row written by `Database.insert_patent` for a patent: every column
of the INSERT statement, including the derived `pgr_deadline`; columns not
in the INSERT list (`notified_at`, `ai_analysis`) are NULL.
`matched_criteria` is `json.dumps(mc) if matched_criteria else None`, so an
empty list is also stored as NULL. -/
def rowOfPatent (p : Patent) (matched_criteria : Option (List Str)) : PatentRow :=
  { patent_number := p.patent_number
    application_number := p.application_number
    title := p.title
    issue_date := p.issue_date
    filing_date := p.filing_date
    inventors := p.inventors
    assignee := p.assignee
    classification_us := p.classification_us
    classification_cpc := p.classification_cpc
    classification_locarno := p.classification_locarno
    image_url := p.image_url
    abstract := p.abstract
    pgr_deadline := pgrDeadline p.issue_date
    status := p.status
    matched_criteria := match matched_criteria with
      | some l => if l.isEmpty then none else some l
      | none => none
    first_seen_at := p.first_seen
    notified_at := none
    notes := p.notes
    ai_analysis := none }

/-- `Database.insert_patent`: the UNIQUE constraint on `patent_number`
raises `IntegrityError` on a duplicate; the except-clause turns that into
`False` with nothing written. -/
def insert_patent (db : Db) (p : Patent) (matched_criteria : Option (List Str)) :
    Bool × Db :=
  if patent_exists db p.patent_number then (false, db)
  else (true, { db with patents := db.patents ++ [rowOfPatent p matched_criteria] })

/-- `Database.log_search_run`: append-only. -/
def log_search_run (db : Db) (run : SearchRun) : Db :=
  { db with search_runs := db.search_runs ++ [run] }

/-- `Database.update_patent_status`. -/
def update_patent_status (db : Db) (patent_number status : Str) : Db :=
  { db with patents := db.patents.map (fun r =>
      if r.patent_number == patent_number then { r with status := status } else r) }

/-- `Database.mark_notified` (`now` is the wall clock made explicit). -/
def mark_notified (db : Db) (patent_number : Str) (now : Nat) : Db :=
  { db with patents := db.patents.map (fun r =>
      if r.patent_number == patent_number then { r with notified_at := some now } else r) }

/-- `Database.update_ai_analysis`. -/
def update_ai_analysis (db : Db) (patent_number analysis_json : Str) : Db :=
  { db with patents := db.patents.map (fun r =>
      if r.patent_number == patent_number then { r with ai_analysis := some analysis_json } else r) }

/-- `Database._row_to_patent`: rebuild a `Patent` from a row.  The stored
`pgr_deadline` column is not read back; the dataclass recomputes the
deadline from `issue_date` on demand. -/
def rowToPatent (r : PatentRow) : Patent :=
  { patent_number := r.patent_number
    application_number := r.application_number
    title := r.title
    issue_date := r.issue_date
    filing_date := r.filing_date
    inventors := r.inventors
    assignee := r.assignee
    classification_us := r.classification_us
    classification_cpc := r.classification_cpc
    classification_locarno := r.classification_locarno
    image_url := r.image_url
    abstract := r.abstract
    status := if r.status.isEmpty then str "new" else r.status
    first_seen := r.first_seen_at
    notified_at := r.notified_at
    notes := r.notes }

/-- `Database.get_patent`: first row with the given number. -/
def get_patent (db : Db) (patent_number : Str) : Option Patent :=
  (db.patents.find? (fun r => r.patent_number == patent_number)).map rowToPatent

/-- `Database.get_patent_count`. -/
def get_patent_count (db : Db) : Nat := db.patents.length

/-! ## Scan orchestrator (`service.py`) -/

structure Alert where
  patent : Patent
  matched_criteria : List Str
deriving DecidableEq, Repr

/-- `ScanResult` (duration omitted as wall-clock data). -/
structure ScanResult where
  alerts : List Alert
  total_fetched : Nat
  new_matches : Nat
  errors : List Str
deriving DecidableEq, Repr

/-- The per-candidate loop shared by `_search_api` and `_search_gazette`:
skip a candidate whose number is already tracked, otherwise run the matcher
and, on a hit, insert and emit an alert. -/
def processCandidates (criteria_list : List SearchCriteriaConfig) :
    List Patent → Db → List Alert × Db
  | [], db => ([], db)
  | p :: ps, db =>
    if patent_exists db p.patent_number then processCandidates criteria_list ps db
    else
      let matched := matcher_match criteria_list p
      if matched.isEmpty then processCandidates criteria_list ps db
      else
        let ins := insert_patent db p (some matched)
        let rest := processCandidates criteria_list ps ins.2
        (⟨p, matched⟩ :: rest.1, rest.2)

/-- `_search_api` with the USPTO client call replaced by its outcome (a
fetched candidate list, or the raised exception's message).  Returns
`((alerts, total_fetched, error), db)` and always logs exactly one
SearchRun; on failure the run records the error and zero counts. -/
def search_api (criteria_list : List SearchCriteriaConfig)
    (outcome : Except Str (List Patent)) (db : Db) :
    (List Alert × Nat × Option Str) × Db :=
  match outcome with
  | .ok patents =>
    let res := processCandidates criteria_list patents db
    let run : SearchRun :=
      { source := str "api", results_count := patents.length,
        new_matches_count := res.1.length, error := none }
    ((res.1, patents.length, none), log_search_run res.2 run)
  | .error e =>
    let run : SearchRun :=
      { source := str "api", results_count := 0, new_matches_count := 0,
        error := some e }
    (([], 0, some (str "API search failed: " ++ e)), log_search_run db run)

/-- `_search_gazette`, same shape as `search_api`. -/
def search_gazette (criteria_list : List SearchCriteriaConfig)
    (outcome : Except Str (List Patent)) (db : Db) :
    (List Alert × Nat × Option Str) × Db :=
  match outcome with
  | .ok patents =>
    let res := processCandidates criteria_list patents db
    let run : SearchRun :=
      { source := str "gazette", results_count := patents.length,
        new_matches_count := res.1.length, error := none }
    ((res.1, patents.length, none), log_search_run res.2 run)
  | .error e =>
    let run : SearchRun :=
      { source := str "gazette", results_count := 0, new_matches_count := 0,
        error := some e }
    (([], 0, some (str "Gazette scrape failed: " ++ e)), log_search_run db run)

/-- `run_scan` with each enabled source's fetch outcome passed explicitly:
API source first, then the gazette, accumulating alerts, fetch counts,
new-match counts and error strings. -/
def run_scan (sources : SourcesConfig) (criteria_list : List SearchCriteriaConfig)
    (api_outcome gazette_outcome : Except Str (List Patent)) (db : Db) :
    ScanResult × Db :=
  let init : ScanResult := ⟨[], 0, 0, []⟩
  let stepA :=
    if sources.uspto_api then
      let r := search_api criteria_list api_outcome db
      ({ alerts := init.alerts ++ r.1.1,
         total_fetched := init.total_fetched + r.1.2.1,
         new_matches := init.new_matches + r.1.1.length,
         errors := init.errors ++ (match r.1.2.2 with | some e => [e] | none => []) },
       r.2)
    else (init, db)
  if sources.official_gazette then
    let r := search_gazette criteria_list gazette_outcome stepA.2
    ({ alerts := stepA.1.alerts ++ r.1.1,
       total_fetched := stepA.1.total_fetched + r.1.2.1,
       new_matches := stepA.1.new_matches + r.1.1.length,
       errors := stepA.1.errors ++ (match r.1.2.2 with | some e => [e] | none => []) },
     r.2)
  else stepA

/-- First insert attempt for patent number `D1` (used by the C3 witness). -/
def patentA : Patent :=
  { patent_number := str "D1", title := str "A", issue_date := ⟨2026, 1, 15⟩, first_seen := 11 }

/-- Second insert attempt for the same number (used by the C3 witness). -/
def patentB : Patent :=
  { patent_number := str "D1", title := str "B", issue_date := ⟨2026, 2, 18⟩, first_seen := 99 }

/-- A fetch outcome is settled in a store when every candidate it carries
that the matcher would accept is already tracked (so a re-scan over it is a
no-op). -/
def Settled (crit : List SearchCriteriaConfig) (o : Except Str (List Patent)) (db : Db) : Prop :=
  ∀ ps, o = .ok ps → ∀ p ∈ ps, (matcher_match crit p).isEmpty = false →
    patent_exists db p.patent_number = true

/-- A one-rule criteria list matching US class prefix `D16` (concrete scan
example). -/
def critEx : List SearchCriteriaConfig := [{ name := str "r", us_classes := [str "D16"] }]

/-- First matching candidate of the concrete scan example. -/
def pX : Patent :=
  { patent_number := str "D100", title := str "T1", issue_date := ⟨2026, 1, 15⟩, classification_us := str "D16/300" }

/-- Second matching candidate of the concrete scan example. -/
def pY : Patent :=
  { patent_number := str "D101", title := str "T2", issue_date := ⟨2026, 1, 15⟩, classification_us := str "D16/301" }

/-! ## Analyzer response normalization (`analyzer.py`) -/

/-- A parsed JSON value as produced by Python `json.loads`.  Floats are
rationals (every JSON numeral denotes a rational); the non-standard
`NaN`/`Infinity` literals that Python additionally accepts are not
modelled. -/
inductive JVal where
  | jnull
  | jbool (b : Bool)
  | jint (n : Int)
  | jfloat (q : ℚ)
  | jstr (s : Str)
  | jarr (xs : List JVal)
  | jobj (fields : List (Str × JVal))

def jsonWs (c : Char) : Bool := c = ' ' || c = '\t' || c = '\n' || c = '\r'

def skipWs (s : Str) : Str := s.dropWhile jsonWs

def hexVal (c : Char) : Option Nat :=
  if '0' ≤ c ∧ c ≤ '9' then some (c.toNat - '0'.toNat)
  else if 'a' ≤ c ∧ c ≤ 'f' then some (c.toNat - 'a'.toNat + 10)
  else if 'A' ≤ c ∧ c ≤ 'F' then some (c.toNat - 'A'.toNat + 10)
  else none

def parseJString : Nat → Str → Option (Str × Str)
  | 0, _ => none
  | _, [] => none
  | fuel + 1, c :: rest =>
    if c = '"' then some ([], rest)
    else if c = '\\' then
      match rest with
      | [] => none
      | e :: rest2 =>
        if e = '"' then (parseJString fuel rest2).map (fun p => ('"' :: p.1, p.2))
        else if e = '\\' then (parseJString fuel rest2).map (fun p => ('\\' :: p.1, p.2))
        else if e = '/' then (parseJString fuel rest2).map (fun p => ('/' :: p.1, p.2))
        else if e = 'b' then (parseJString fuel rest2).map (fun p => ('\x08' :: p.1, p.2))
        else if e = 'f' then (parseJString fuel rest2).map (fun p => ('\x0c' :: p.1, p.2))
        else if e = 'n' then (parseJString fuel rest2).map (fun p => ('\n' :: p.1, p.2))
        else if e = 'r' then (parseJString fuel rest2).map (fun p => ('\r' :: p.1, p.2))
        else if e = 't' then (parseJString fuel rest2).map (fun p => ('\t' :: p.1, p.2))
        else if e = 'u' then
          match rest2 with
          | a :: b :: c2 :: d :: rest3 =>
            match hexVal a, hexVal b, hexVal c2, hexVal d with
            | some ha, some hb, some hc, some hd =>
              (parseJString fuel rest3).map
                (fun p => (Char.ofNat (((ha * 16 + hb) * 16 + hc) * 16 + hd) :: p.1, p.2))
            | _, _, _, _ => none
          | _ => none
        else none
    else if c.toNat < 32 then none
    else (parseJString fuel rest).map (fun p => (c :: p.1, p.2))

def digitsToNat (ds : Str) : Nat := ds.foldl (fun a c => a * 10 + (c.toNat - '0'.toNat)) 0

def parseNumber (s : Str) : Option (JVal × Str) :=
  let sgn : Int × Str := match s with | '-' :: r => (-1, r) | _ => (1, s)
  match sgn.2 with
  | [] => none
  | c :: _ =>
    if c.isDigit then
      let intDigits := if c = '0' then ['0'] else sgn.2.takeWhile Char.isDigit
      let s2 := sgn.2.drop intDigits.length
      let ipart : Nat := digitsToNat intDigits
      let fracRes : Option (Str × Str) :=
        match s2 with
        | '.' :: r =>
          let fd := r.takeWhile Char.isDigit
          if fd.isEmpty then none else some (fd, r.drop fd.length)
        | _ => none
      let s3 := match fracRes with | some p => p.2 | none => s2
      let expRes : Option (Int × Str) :=
        match s3 with
        | e :: r =>
          if e = 'e' ∨ e = 'E' then
            let es : Int × Str := match r with
              | '-' :: r2 => (-1, r2) | '+' :: r2 => (1, r2) | _ => (1, r)
            let ed := es.2.takeWhile Char.isDigit
            if ed.isEmpty then none else some (es.1 * (digitsToNat ed : Int), es.2.drop ed.length)
          else none
        | [] => none
      let s4 := match expRes with | some p => p.2 | none => s3
      match fracRes, expRes with
      | none, none => some (.jint (sgn.1 * (ipart : Int)), s2)
      | _, _ =>
        let frac : ℚ := match fracRes with
          | some p => (digitsToNat p.1 : ℚ) / ((10 : ℚ) ^ p.1.length)
          | none => 0
        let ex : Int := match expRes with | some p => p.1 | none => 0
        some (.jfloat ((sgn.1 : ℚ) * ((ipart : ℚ) + frac) * (10 : ℚ) ^ ex), s4)
    else none

mutual
def parseVal : Nat → Str → Option (JVal × Str)
  | 0, _ => none
  | fuel + 1, s0 =>
    let s := skipWs s0
    match s with
    | 'n' :: 'u' :: 'l' :: 'l' :: rest => some (.jnull, rest)
    | 't' :: 'r' :: 'u' :: 'e' :: rest => some (.jbool true, rest)
    | 'f' :: 'a' :: 'l' :: 's' :: 'e' :: rest => some (.jbool false, rest)
    | '"' :: rest => (parseJString (fuel + 1) rest).map (fun p => (JVal.jstr p.1, p.2))
    | '[' :: rest =>
      (match skipWs rest with
       | ']' :: rest2 => some (JVal.jarr [], rest2)
       | _ => (parseItems fuel (skipWs rest)).map (fun p => (JVal.jarr p.1, p.2)))
    | '{' :: rest =>
      (match skipWs rest with
       | '}' :: rest2 => some (JVal.jobj [], rest2)
       | _ => (parseMembers fuel (skipWs rest)).map (fun p => (JVal.jobj p.1, p.2)))
    | _ => parseNumber s

def parseItems : Nat → Str → Option (List JVal × Str)
  | 0, _ => none
  | fuel + 1, s =>
    match parseVal fuel s with
    | none => none
    | some (v, rest) =>
      match skipWs rest with
      | ',' :: rest2 => (parseItems fuel rest2).map (fun p => (v :: p.1, p.2))
      | ']' :: rest2 => some ([v], rest2)
      | _ => none

def parseMembers : Nat → Str → Option (List (Str × JVal) × Str)
  | 0, _ => none
  | fuel + 1, s =>
    match skipWs s with
    | '"' :: rest =>
      (match parseJString (fuel + 1) rest with
       | none => none
       | some (k, rest2) =>
         match skipWs rest2 with
         | ':' :: rest3 =>
           (match parseVal fuel rest3 with
            | none => none
            | some (v, rest4) =>
              match skipWs rest4 with
              | ',' :: rest5 => (parseMembers fuel rest5).map (fun p => ((k, v) :: p.1, p.2))
              | '}' :: rest5 => some ([(k, v)], rest5)
              | _ => none)
         | _ => none)
    | _ => none
end

def loads (s : Str) : Option JVal :=
  match parseVal (s.length + 1) s with
  | some (v, rest) => if (skipWs rest).isEmpty then some v else none
  | none => none

/-- Python `int(x)` as applied by `_data_to_result` to the score field:
bools and ints are exact, floats truncate toward zero, strings must be an
optionally signed digit string after stripping whitespace (Python's
underscore digit grouping is not modelled); anything else raises. -/
def pyInt : JVal → Except Str Int
  | .jbool b => .ok (if b then 1 else 0)
  | .jint n => .ok n
  | .jfloat q => .ok (q.num.tdiv (q.den : Int))
  | .jstr s =>
    let t := pyStrip s
    let sgn : Int × Str := match t with
      | '-' :: r => (-1, r)
      | '+' :: r => (1, r)
      | _ => (1, t)
    if sgn.2 ≠ [] ∧ sgn.2.all Char.isDigit then .ok (sgn.1 * (digitsToNat sgn.2 : Int))
    else .error (str "ValueError")
  | _ => .error (str "TypeError")

/-- `dict.get(key, default)` for an object built by `json.loads`, which
keeps the last occurrence of a duplicated key. -/
def dictGet (fields : List (Str × JVal)) (key : Str) (default : JVal) : JVal :=
  match fields.reverse.find? (fun kv => kv.1 == key) with
  | some kv => kv.2
  | none => default

/-- The `AnalysisResult` fields produced by response normalization.
`reasoning` is stored as the raw JSON value, as in Python; the
image/model/timestamp bookkeeping fields set by `analyze` after parsing are
omitted (no claim concerns them). -/
structure AnalysisResult where
  similarity_score : Int
  risk_level : Str
  recommendation : Str
  reasoning : JVal
  error : Option Str := none

/-- `PatentAnalyzer._data_to_result`: clamp the coerced score to [0, 100],
validate the risk and recommendation enumerations with defaults, default the
reasoning to the empty string.  A non-dict argument raises (`.get` is
missing); a score value `int()` cannot coerce raises. -/
def data_to_result (data : JVal) : Except Str AnalysisResult :=
  match data with
  | .jobj fields =>
    match pyInt (dictGet fields (str "similarity_score") (.jint 0)) with
    | .error e => .error e
    | .ok score0 =>
      let score := max 0 (min 100 score0)
      let rl := dictGet fields (str "risk_level") (.jstr (str "none"))
      let risk_level := match rl with
        | .jstr s =>
          if s = str "high" ∨ s = str "medium" ∨ s = str "low" ∨ s = str "none" then s
          else str "none"
        | _ => str "none"
      let rc := dictGet fields (str "recommendation") (.jstr (str "monitor"))
      let recommendation := match rc with
        | .jstr s => if s = str "flag" ∨ s = str "monitor" ∨ s = str "dismiss" then s
          else str "monitor"
        | _ => str "monitor"
      .ok { similarity_score := score, risk_level := risk_level,
            recommendation := recommendation,
            reasoning := dictGet fields (str "reasoning") (.jstr []) }
  | _ => .error (str "AttributeError")

/-- Tier-2 search `re.search(r'\x7b[^\x7b\x7d]*"similarity_score"[^\x7b\x7d]*\x7d', text)`:
the leftmost brace-delimited, brace-free span that contains the quoted
similarity-score key (for a fixed opening brace the closing brace is forced
to be the next brace, which must be closing). -/
def findScoreObject : Str → Option Str
  | [] => none
  | c :: rest =>
    if c = '{' then
      let run := rest.takeWhile (fun x => x != '{' && x != '}')
      match rest.drop run.length with
      | '}' :: _ =>
        if containsSubstring run (str "\"similarity_score\"") then some ('{' :: run ++ ['}'])
        else findScoreObject rest
      | _ => findScoreObject rest
    else findScoreObject rest

/-- Tier-3 search `re.search(r'\x7b.*?\x7d', text, re.DOTALL)`: the first
opening brace followed by the nearest closing brace (non-greedy). -/
def findBracePair (s : Str) : Option Str :=
  match s.dropWhile (fun c => c != '{') with
  | '{' :: rest =>
    let inner := rest.takeWhile (fun c => c != '}')
    match rest.drop inner.length with
    | '}' :: _ => some ('{' :: inner ++ ['}'])
    | _ => none
  | _ => none

/-- The sentinel failure result of `_parse_response` when no tier parses:
score 0, risk `none`, recommendation `monitor`, reasoning carrying a
200-character excerpt of the raw text, error tag `parse_failure`. -/
def parseFallback (response_text : Str) : AnalysisResult :=
  { similarity_score := 0, risk_level := str "none", recommendation := str "monitor",
    reasoning := .jstr (str "Could not parse AI response. Raw: " ++ response_text.take 200),
    error := some (str "parse_failure") }

/-- Strategy 3 of `_parse_response` plus the fallback. -/
def tier3 (response_text : Str) : Except Str AnalysisResult :=
  match findBracePair response_text with
  | some sub =>
    (match loads sub with
     | some data => data_to_result data
     | none => .ok (parseFallback response_text))
  | none => .ok (parseFallback response_text)

/-- `PatentAnalyzer._parse_response`: direct JSON parse of the stripped
text, then the anchored-regex extraction, then the first brace-pair
extraction, then the sentinel; only `json.JSONDecodeError` is caught between
tiers, so an exception from `_data_to_result` propagates (modelled as
`.error`). -/
def parse_response (response_text : Str) : Except Str AnalysisResult :=
  match loads (pyStrip response_text) with
  | some data => data_to_result data
  | none =>
    match findScoreObject response_text with
    | some sub =>
      (match loads sub with
       | some data => data_to_result data
       | none => tier3 response_text)
    | none => tier3 response_text

/-- `PatentAnalyzer.analyze` with the upstream call's outcome passed
explicitly: a successful call's text is normalized; any exception — from the
call or from normalization — is caught by the blanket handler and converted
to an error sentinel tagged with the exception text. -/
def analyze (call_outcome : Except Str Str) : AnalysisResult :=
  let body : Except Str AnalysisResult :=
    match call_outcome with
    | .ok response_text => parse_response response_text
    | .error e => .error e
  match body with
  | .ok result => result
  | .error e =>
    { similarity_score := 0, risk_level := str "none", recommendation := str "monitor",
      reasoning := .jstr (str "AI analysis failed: " ++ e), error := some e }

/-- The `RuntimeError` message `_call_api` raises when its retries are
exhausted — the upstream-failure tag of the code's own making. -/
def retriesExhaustedMsg : Str := str "Anthropic API call failed after all retries"

/-- Whether a fallible computation returned normally. -/
def exceptIsOk : Except Str AnalysisResult → Bool
  | .ok _ => true
  | .error _ => false

/-- A response whose tier-1 parse yields a dict with a non-numeric score
string. -/
def cexResponse : Str := '{' :: (str "\"similarity_score\": \"n/a\"" ++ ['}'])

/-! ## Theorems -/

theorem nilIsPrefixOf (x : Str) : ([] : Str).isPrefixOf x = true := by
  cases x <;> rfl

theorem pyStrip_all_space (t : Str) (h : ∀ c ∈ t, pyIsSpace c) : pyStrip t = [] := by
  unfold pyStrip
  rw [List.dropWhile_eq_nil_iff.2 h]
  simp

/-- C4: `_class_matches` normalizes both sides (upper-case, strip, drop
spaces) and tests `startswith` on each semicolon-delimited value:
`"D16/300"` matches prefixes `"D16/300"` (exact), `"D16/3"` and `"D16"` but
not `"D26"`; the multi-valued `"G02C 1/00; G02C 5/00"` matches `"G02C 5"`;
and an empty classification matches no prefix while an empty prefix matches
no classification (both sides must be non-empty). -/
theorem C4_matcher_prefix_semantics :
    classMatches (str "D16/300") (str "D16/300") = true ∧
    classMatches (str "D16/300") (str "D16/3") = true ∧
    classMatches (str "D16/300") (str "D16") = true ∧
    classMatches (str "D16/300") (str "D26") = false ∧
    classMatches (str "G02C 1/00; G02C 5/00") (str "G02C 5") = true ∧
    classMatches (str "g02c 1/00") (str " G02C1 ") = true ∧
    (∀ target_class, classMatches [] target_class = false) ∧
    (∀ patent_classification, classMatches patent_classification [] = false) := by
  refine ⟨by decide, by decide, by decide, by decide, by decide, by decide, ?_, ?_⟩
  · intro t; rfl
  · intro c; unfold classMatches; simp

/-- C10: a configured class prefix that is a non-empty string consisting only
of whitespace normalizes to the empty string, and then every patent with a
non-empty classification field matches it — the non-emptiness guard tests the
prefix before normalization, not after. -/
theorem C10_whitespace_prefix_matches_everything
    (target_class patent_classification : Str)
    (h1 : target_class ≠ []) (h2 : ∀ c ∈ target_class, pyIsSpace c)
    (h3 : patent_classification ≠ []) :
    classMatches patent_classification target_class = true := by
  unfold classMatches
  rw [if_neg]
  · rw [pyStrip_all_space target_class h2]
    show (List.map _ _).any (fun cls => List.isPrefixOf [] cls) = true
    have hne := List.splitOnP_ne_nil (p := (· == ';')) patent_classification
    rcases hsp : patent_classification.splitOn ';' with _ | ⟨a, rest⟩
    · exact absurd hsp hne
    · simp [hsp, List.any_cons, nilIsPrefixOf]
  · simp [List.isEmpty_iff, h1, h3]

/-- C10 witness: the whitespace-only prefix `" "` matches the classification
`"X"`. -/
theorem C10_witness : classMatches (str "X") (str " ") = true :=
  C10_whitespace_prefix_matches_everything (str " ") (str "X")
    (by decide) (by decide) (by decide)

/-- C6: the PGR deadline is the issue date shifted forward by exactly 9
calendar months — the target month index is the issue month index plus 9,
renormalized into 1..12 — with the day-of-month clamped to the last valid day
of the target month; concretely 2026-01-15 ↦ 2026-10-15 and 2026-05-31 ↦
2027-02-28. -/
theorem C6_deadline_nine_months (d : Date) (h1 : 1 ≤ d.month) (h2 : d.month ≤ 12) :
    ((pgrDeadline d).year * 12 + (pgrDeadline d).month = d.year * 12 + d.month + 9 ∧
      1 ≤ (pgrDeadline d).month ∧ (pgrDeadline d).month ≤ 12 ∧
      (pgrDeadline d).day =
        min d.day (daysInMonth (pgrDeadline d).year (pgrDeadline d).month)) ∧
    pgrDeadline ⟨2026, 1, 15⟩ = ⟨2026, 10, 15⟩ ∧
    pgrDeadline ⟨2026, 5, 31⟩ = ⟨2027, 2, 28⟩ := by
  have hsm : setMonths 9 = (0, 9) := by decide
  refine ⟨⟨?_, ?_, ?_, ?_⟩, by decide, by decide⟩ <;>
  · unfold pgrDeadline addMonths
    rw [hsm]
    unfold radd
    dsimp only
    split_ifs <;> first | rfl | (dsimp only; omega)

/-- C6 witness: instantiation at the issue date 2026-01-15. -/
theorem C6_witness :
    (pgrDeadline ⟨2026, 1, 15⟩).year * 12 + (pgrDeadline ⟨2026, 1, 15⟩).month =
      (2026 : Int) * 12 + 1 + 9 :=
  (C6_deadline_nine_months ⟨2026, 1, 15⟩ (by decide) (by decide)).1.1

/-- C5 counterexample: `pgr_months_remaining` drops the `years` component of
the `relativedelta`, so for issue date 2026-01-15 and today 2024-01-15 (the
deadline 2026-10-15 is 33 calendar months away) it returns 9, not the signed
calendar month delta 33 claimed for every issue date and every today. -/
theorem C5_counterexample :
    pgrMonthsRemaining ⟨2026, 1, 15⟩ ⟨2024, 1, 15⟩ = 9 ∧
    specMonthsRemaining (pgrDeadline ⟨2026, 1, 15⟩) ⟨2024, 1, 15⟩ = 33 ∧
    pgrMonthsRemaining ⟨2026, 1, 15⟩ ⟨2024, 1, 15⟩ ≠
      specMonthsRemaining (pgrDeadline ⟨2026, 1, 15⟩) ⟨2024, 1, 15⟩ := by
  refine ⟨?_, ?_, ?_⟩ <;>
    norm_num [pgrMonthsRemaining, specMonthsRemaining, relativedelta, rdTotalMonths,
      addMonths, setMonths, radd, daysInMonth, isLeap, monthOffset, toOrdinal,
      dateLtP, pgrDeadline]

/-- C5 (amended): `pgr_months_remaining` equals the relativedelta month
component plus day-delta / 30; this agrees with the spec's signed calendar
month delta plus day-delta / 30 whenever the deadline is less than 12 whole
calendar months from today (the code drops whole years of the delta).  The
urgency buckets apply exactly as claimed to the computed value: `expired`
iff it is ≤ 0, `high` iff in (0, 3), `medium` iff in [3, 6), `low` iff ≥ 6;
concretely today = deadline − 2 months gives `high`, − 4 months `medium`,
− 8 months `low`, and deadline + 1 day gives `expired`. -/
theorem C5_months_remaining_and_urgency :
    (∀ issue_date today : Date,
      (rdTotalMonths (pgrDeadline issue_date) today).natAbs < 12 →
      pgrMonthsRemaining issue_date today =
        specMonthsRemaining (pgrDeadline issue_date) today) ∧
    (∀ issue_date today : Date,
      (urgency issue_date today = "expired" ↔ pgrMonthsRemaining issue_date today ≤ 0) ∧
      (urgency issue_date today = "high" ↔
        0 < pgrMonthsRemaining issue_date today ∧ pgrMonthsRemaining issue_date today < 3) ∧
      (urgency issue_date today = "medium" ↔
        3 ≤ pgrMonthsRemaining issue_date today ∧ pgrMonthsRemaining issue_date today < 6) ∧
      (urgency issue_date today = "low" ↔ 6 ≤ pgrMonthsRemaining issue_date today)) ∧
    urgency ⟨2026, 1, 15⟩ ⟨2026, 8, 15⟩ = "high" ∧
    urgency ⟨2026, 1, 15⟩ ⟨2026, 6, 15⟩ = "medium" ∧
    urgency ⟨2026, 1, 15⟩ ⟨2026, 2, 15⟩ = "low" ∧
    urgency ⟨2026, 1, 15⟩ ⟨2026, 10, 16⟩ = "expired" := by
  refine ⟨?_, ?_, ?_, ?_, ?_, ?_⟩
  · intro issue_date today h
    unfold pgrMonthsRemaining specMonthsRemaining relativedelta
    dsimp only
    rw [setMonths, if_neg (by omega)]
  · intro issue_date today
    unfold urgency
    dsimp only
    split_ifs with h1 h2 h3 <;>
      refine ⟨?_, ?_, ?_, ?_⟩ <;> simp_all <;> try (intros; linarith)
  all_goals
    norm_num [urgency, pgrMonthsRemaining, relativedelta, rdTotalMonths, addMonths,
      setMonths, radd, daysInMonth, isLeap, monthOffset, toOrdinal, dateLtP, pgrDeadline]

/-- C5 witness: for issue date 2026-01-15 and today 2026-08-15 the deadline
is within 12 months, and the computed value equals the spec's formula. -/
theorem C5_witness :
    pgrMonthsRemaining ⟨2026, 1, 15⟩ ⟨2026, 8, 15⟩ =
      specMonthsRemaining (pgrDeadline ⟨2026, 1, 15⟩) ⟨2026, 8, 15⟩ :=
  C5_months_remaining_and_urgency.1 ⟨2026, 1, 15⟩ ⟨2026, 8, 15⟩ (by decide)

/-- C3: a patent number is inserted at most once — after a successful
insert, a second insert attempt for the same `patent_number` returns `False`
(not an error), leaves the store completely unchanged, and in particular the
stored record's `first_seen` timestamp is still that of the first insert. -/
theorem C3_insert_at_most_once (db : Db) (p q : Patent)
    (mcp mcq : Option (List Str))
    (hnum : q.patent_number = p.patent_number)
    (hnew : patent_exists db p.patent_number = false) :
    (insert_patent db p mcp).1 = true ∧
    (insert_patent (insert_patent db p mcp).2 q mcq).1 = false ∧
    (insert_patent (insert_patent db p mcp).2 q mcq).2 = (insert_patent db p mcp).2 ∧
    (get_patent (insert_patent (insert_patent db p mcp).2 q mcq).2
        q.patent_number).map Patent.first_seen = some p.first_seen := by
  have h1 : insert_patent db p mcp =
      (true, { db with patents := db.patents ++ [rowOfPatent p mcp] }) := by
    simp [insert_patent, hnew]
  have hex : patent_exists { db with patents := db.patents ++ [rowOfPatent p mcp] }
      q.patent_number = true := by
    simp [patent_exists, List.any_append, hnum, rowOfPatent]
  have h2 : insert_patent { db with patents := db.patents ++ [rowOfPatent p mcp] } q mcq =
      (false, { db with patents := db.patents ++ [rowOfPatent p mcp] }) := by
    simp [insert_patent, hex]
  have hq : patent_exists db q.patent_number = false := by rw [hnum]; exact hnew
  have hfindnone : db.patents.find? (fun r => r.patent_number == q.patent_number) = none := by
    rw [List.find?_eq_none]
    intro r hr
    simp only [patent_exists] at hq
    exact List.any_eq_false.mp hq r hr
  refine ⟨by rw [h1], by rw [h1, h2], by rw [h1, h2], ?_⟩
  rw [h1, h2]
  simp only [get_patent, List.find?_append, hfindnone, Option.none_or]
  simp [rowOfPatent, hnum, rowToPatent]

/-- C3 witness: a concrete double insert of patent number `D1` — the second
attempt reports `false` and the stored `first_seen` is still 11. -/
theorem C3_witness :
    (insert_patent (insert_patent emptyDb patentA none).2 patentB none).1 = false ∧
    (get_patent (insert_patent (insert_patent emptyDb patentA none).2 patentB none).2
        patentB.patent_number).map Patent.first_seen = some 11 :=
  ⟨(C3_insert_at_most_once emptyDb patentA patentB none none (by decide) (by decide)).2.1,
   (C3_insert_at_most_once emptyDb patentA patentB none none (by decide) (by decide)).2.2.2⟩

/-- C7 counterexample: `insert_patent` does write a derived field to durable
state — the stored row for a freshly inserted patent carries the computed
`pgr_deadline` (schema column `pgr_deadline TEXT NOT NULL`): inserting a
patent issued 2026-01-15 stores the derived deadline 2026-10-15. -/
theorem C7_counterexample :
    ((insert_patent emptyDb patentA none).2.patents.map PatentRow.pgr_deadline) =
      [pgrDeadline ⟨2026, 1, 15⟩] ∧
    pgrDeadline ⟨2026, 1, 15⟩ = ⟨2026, 10, 15⟩ := by
  constructor <;> decide

/-- C7 (amended): `pgr_months_remaining` and `urgency` are never persisted
(no schema column holds them), and although `insert_patent` writes a
`pgr_deadline` column, the stored value is dead on read: `_row_to_patent`
ignores it entirely (a row with any other stored deadline reads back as the
identical `Patent`, whose deadline property is recomputed from
`issue_date`), and no update operation (`update_patent_status`,
`mark_notified`, `update_ai_analysis`, `log_search_run`) changes the stored
deadline column. -/
theorem C7_derived_fields_recomputed (r : PatentRow) (x : Date) (db : Db)
    (pn st aj : Str) (now : Nat) (run : SearchRun) :
    rowToPatent { r with pgr_deadline := x } = rowToPatent r ∧
    (update_patent_status db pn st).patents.map PatentRow.pgr_deadline =
      db.patents.map PatentRow.pgr_deadline ∧
    (mark_notified db pn now).patents.map PatentRow.pgr_deadline =
      db.patents.map PatentRow.pgr_deadline ∧
    (update_ai_analysis db pn aj).patents.map PatentRow.pgr_deadline =
      db.patents.map PatentRow.pgr_deadline ∧
    (log_search_run db run).patents = db.patents := by
  refine ⟨rfl, ?_, ?_, ?_, rfl⟩ <;>
  · simp only [update_patent_status, mark_notified, update_ai_analysis, List.map_map]
    refine List.map_congr_left ?_
    intro a _
    simp only [Function.comp_apply]
    split <;> rfl

theorem patent_exists_insert_mono (db : Db) (p : Patent) (mc : Option (List Str))
    (num : Str) (h : patent_exists db num = true) :
    patent_exists (insert_patent db p mc).2 num = true := by
  unfold insert_patent
  split
  · exact h
  · simp only [patent_exists, List.any_append] at *
    simp [h]

theorem patent_exists_insert_self (db : Db) (p : Patent) (mc : Option (List Str)) :
    patent_exists (insert_patent db p mc).2 p.patent_number = true := by
  unfold insert_patent
  split
  · assumption
  · simp [patent_exists, List.any_append, rowOfPatent]

theorem pc_mono (crit : List SearchCriteriaConfig) (ps : List Patent) (db : Db)
    (num : Str) (h : patent_exists db num = true) :
    patent_exists (processCandidates crit ps db).2 num = true := by
  induction ps generalizing db with
  | nil => exact h
  | cons p ps ih =>
    unfold processCandidates
    dsimp only
    split
    · exact ih db h
    · split
      · exact ih db h
      · exact ih _ (patent_exists_insert_mono db p _ num h)

theorem pc_complete (crit : List SearchCriteriaConfig) (ps : List Patent) (db : Db)
    (p : Patent) (hmem : p ∈ ps) (hmatch : (matcher_match crit p).isEmpty = false) :
    patent_exists (processCandidates crit ps db).2 p.patent_number = true := by
  induction ps generalizing db with
  | nil => cases hmem
  | cons q qs ih =>
    rcases List.mem_cons.mp hmem with rfl | hmem
    · unfold processCandidates
      dsimp only
      split
      · exact pc_mono crit qs db _ (by simp_all)
      · rw [if_neg (by simp [hmatch])]
        exact pc_mono crit qs _ _ (patent_exists_insert_self db p _)
    · unfold processCandidates
      dsimp only
      split
      · exact ih db hmem
      · split
        · exact ih db hmem
        · exact ih _ hmem

theorem pc_noop (crit : List SearchCriteriaConfig) (ps : List Patent) (db : Db)
    (h : ∀ p ∈ ps, (matcher_match crit p).isEmpty = false →
          patent_exists db p.patent_number = true) :
    processCandidates crit ps db = ([], db) := by
  induction ps with
  | nil => rfl
  | cons p qs ih =>
    unfold processCandidates
    dsimp only
    rcases hex : patent_exists db p.patent_number with _ | _
    · rcases hm : (matcher_match crit p).isEmpty with _ | _
      · exact absurd (h p (by simp) hm) (by simp [hex])
      · simp only [hex, Bool.false_eq_true, if_false, hm, if_true]
        exact ih (fun q hq => h q (by simp [hq]))
    · simp only [hex, if_true]
      exact ih (fun q hq => h q (by simp [hq]))

theorem search_api_mono (crit : List SearchCriteriaConfig) (o : Except Str (List Patent))
    (db : Db) (num : Str) (h : patent_exists db num = true) :
    patent_exists (search_api crit o db).2 num = true := by
  unfold search_api
  rcases o with e | ps
  · exact h
  · exact pc_mono crit ps db num h

theorem search_gazette_mono (crit : List SearchCriteriaConfig) (o : Except Str (List Patent))
    (db : Db) (num : Str) (h : patent_exists db num = true) :
    patent_exists (search_gazette crit o db).2 num = true := by
  unfold search_gazette
  rcases o with e | ps
  · exact h
  · exact pc_mono crit ps db num h

theorem search_api_settles (crit : List SearchCriteriaConfig) (o : Except Str (List Patent))
    (db : Db) : Settled crit o (search_api crit o db).2 := by
  intro ps hps p hmem hmatch
  subst hps
  unfold search_api
  exact pc_complete crit ps db p hmem hmatch

theorem search_gazette_settles (crit : List SearchCriteriaConfig) (o : Except Str (List Patent))
    (db : Db) : Settled crit o (search_gazette crit o db).2 := by
  intro ps hps p hmem hmatch
  subst hps
  unfold search_gazette
  exact pc_complete crit ps db p hmem hmatch

theorem settled_mono (crit : List SearchCriteriaConfig) (o : Except Str (List Patent))
    (db db2 : Db)
    (hmono : ∀ num, patent_exists db num = true → patent_exists db2 num = true)
    (h : Settled crit o db) : Settled crit o db2 :=
  fun ps hps p hmem hmatch => hmono _ (h ps hps p hmem hmatch)

theorem search_api_noop (crit : List SearchCriteriaConfig) (o : Except Str (List Patent))
    (db : Db) (h : Settled crit o db) :
    (search_api crit o db).1.1 = [] ∧ (search_api crit o db).2.patents = db.patents := by
  unfold search_api
  rcases o with e | ps
  · exact ⟨rfl, rfl⟩
  · dsimp only
    rw [pc_noop crit ps db (h ps rfl)]
    exact ⟨rfl, rfl⟩

theorem search_gazette_noop (crit : List SearchCriteriaConfig) (o : Except Str (List Patent))
    (db : Db) (h : Settled crit o db) :
    (search_gazette crit o db).1.1 = [] ∧ (search_gazette crit o db).2.patents = db.patents := by
  unfold search_gazette
  rcases o with e | ps
  · exact ⟨rfl, rfl⟩
  · dsimp only
    rw [pc_noop crit ps db (h ps rfl)]
    exact ⟨rfl, rfl⟩

theorem patent_exists_congr (db db2 : Db) (h : db.patents = db2.patents) (num : Str) :
    patent_exists db num = patent_exists db2 num := by
  simp [patent_exists, h]

/-- C2: re-scanning is idempotent — running the same scan twice with the
same per-source fetch outcomes yields zero new matches and no alerts on the
second run, and leaves the patents table (hence the patent count) unchanged:
every candidate is skipped by the existence check before matching. -/
theorem C2_idempotent_rescan (sources : SourcesConfig)
    (crit : List SearchCriteriaConfig) (o1 o2 : Except Str (List Patent)) (db : Db) :
    (run_scan sources crit o1 o2 (run_scan sources crit o1 o2 db).2).1.new_matches = 0 ∧
    (run_scan sources crit o1 o2 (run_scan sources crit o1 o2 db).2).1.alerts = [] ∧
    (run_scan sources crit o1 o2 (run_scan sources crit o1 o2 db).2).2.patents =
      (run_scan sources crit o1 o2 db).2.patents ∧
    get_patent_count (run_scan sources crit o1 o2 (run_scan sources crit o1 o2 db).2).2 =
      get_patent_count (run_scan sources crit o1 o2 db).2 := by
  rcases sources with ⟨ua, og⟩
  cases ua <;> cases og
  · -- both sources disabled: the scan does nothing at all
    simp [run_scan, get_patent_count]
  · -- gazette only
    have hS2 : Settled crit o2 (search_gazette crit o2 db).2 :=
      search_gazette_settles crit o2 db
    have hG := search_gazette_noop crit o2 (search_gazette crit o2 db).2 hS2
    simp only [run_scan, Bool.false_eq_true, if_false, if_true, get_patent_count]
    rw [hG.1, hG.2]
    simp
  · -- api only
    have hS1 : Settled crit o1 (search_api crit o1 db).2 :=
      search_api_settles crit o1 db
    have hA := search_api_noop crit o1 (search_api crit o1 db).2 hS1
    simp only [run_scan, Bool.false_eq_true, if_false, if_true, get_patent_count]
    rw [hA.1, hA.2]
    simp
  · -- both sources enabled
    have hS1 : Settled crit o1 (search_gazette crit o2 (search_api crit o1 db).2).2 :=
      settled_mono crit o1 _ _
        (fun num h => search_gazette_mono crit o2 _ num h)
        (search_api_settles crit o1 db)
    have hS2 : Settled crit o2 (search_gazette crit o2 (search_api crit o1 db).2).2 :=
      search_gazette_settles crit o2 _
    have hA := search_api_noop crit o1 _ hS1
    have hS2A : Settled crit o2
        (search_api crit o1 (search_gazette crit o2 (search_api crit o1 db).2).2).2 :=
      settled_mono crit o2 _ _
        (fun num h => by rw [patent_exists_congr _ _ hA.2 num]; exact h)
        hS2
    have hG := search_gazette_noop crit o2 _ hS2A
    simp only [run_scan, if_true, get_patent_count]
    rw [hA.1, hG.1, hG.2, hA.2]
    simp

theorem pc_runs (crit : List SearchCriteriaConfig) (ps : List Patent) (db : Db) :
    (processCandidates crit ps db).2.search_runs = db.search_runs := by
  induction ps generalizing db with
  | nil => rfl
  | cons p ps ih =>
    unfold processCandidates
    dsimp only
    split
    · exact ih db
    · split
      · exact ih db
      · rw [ih]
        unfold insert_patent
        split <;> rfl

theorem scanApiFails (crit : List SearchCriteriaConfig) (db : Db) (e : Str)
    (ps : List Patent) :
    (run_scan ⟨true, true⟩ crit (.error e) (.ok ps) db).1.errors =
      [str "API search failed: " ++ e] ∧
    (run_scan ⟨true, true⟩ crit (.error e) (.ok ps) db).1.new_matches =
      (run_scan ⟨true, true⟩ crit (.error e) (.ok ps) db).1.alerts.length ∧
    (run_scan ⟨true, true⟩ crit (.error e) (.ok ps) db).1.total_fetched = ps.length ∧
    (run_scan ⟨true, true⟩ crit (.error e) (.ok ps) db).2.search_runs =
      db.search_runs ++
        [{ source := str "api", results_count := 0, new_matches_count := 0, error := some e },
         { source := str "gazette", results_count := ps.length,
           new_matches_count :=
             (run_scan ⟨true, true⟩ crit (.error e) (.ok ps) db).1.new_matches,
           error := none }] ∧
    (∀ p ∈ ps, (matcher_match crit p).isEmpty = false →
      patent_exists (run_scan ⟨true, true⟩ crit (.error e) (.ok ps) db).2
        p.patent_number = true) := by
  simp only [run_scan, search_api, search_gazette, if_true]
  refine ⟨rfl, by simp, by simp, ?_, ?_⟩
  · simp [log_search_run, pc_runs]
  · intro p hmem hmatch
    exact pc_complete crit ps _ p hmem hmatch

theorem scanGazetteFails (crit : List SearchCriteriaConfig) (db : Db) (e : Str)
    (ps : List Patent) :
    (run_scan ⟨true, true⟩ crit (.ok ps) (.error e) db).1.errors =
      [str "Gazette scrape failed: " ++ e] ∧
    (run_scan ⟨true, true⟩ crit (.ok ps) (.error e) db).1.new_matches =
      (run_scan ⟨true, true⟩ crit (.ok ps) (.error e) db).1.alerts.length ∧
    (run_scan ⟨true, true⟩ crit (.ok ps) (.error e) db).1.total_fetched = ps.length ∧
    (run_scan ⟨true, true⟩ crit (.ok ps) (.error e) db).2.search_runs =
      db.search_runs ++
        [{ source := str "api", results_count := ps.length,
           new_matches_count :=
             (run_scan ⟨true, true⟩ crit (.ok ps) (.error e) db).1.new_matches,
           error := none },
         { source := str "gazette", results_count := 0, new_matches_count := 0,
           error := some e }] ∧
    (∀ p ∈ ps, (matcher_match crit p).isEmpty = false →
      patent_exists (run_scan ⟨true, true⟩ crit (.ok ps) (.error e) db).2
        p.patent_number = true) := by
  simp only [run_scan, search_api, search_gazette, if_true]
  refine ⟨rfl, by simp, by simp, ?_, ?_⟩
  · simp [log_search_run, pc_runs]
  · intro p hmem hmatch
    exact pc_complete crit ps db p hmem hmatch

/-- C1: with both sources enabled, one source's fetch failure does not abort
the scan — `run_scan` returns normally with exactly that source's error
string in the aggregate, the other source's candidates still processed (every
fetched matching candidate becomes tracked), accurate totals, and exactly one
SearchRun logged per source: the failing source's run carries the error, the
succeeding source's run carries its counts.  Concretely, the API source
raising while the gazette yields two matching candidates gives exactly 1
error, exactly 2 new matches, and 2 logged runs. -/
theorem C1_partial_failure_isolation :
    (∀ (crit : List SearchCriteriaConfig) (db : Db) (e : Str) (ps : List Patent),
      (run_scan ⟨true, true⟩ crit (.error e) (.ok ps) db).1.errors =
        [str "API search failed: " ++ e] ∧
      (run_scan ⟨true, true⟩ crit (.error e) (.ok ps) db).1.new_matches =
        (run_scan ⟨true, true⟩ crit (.error e) (.ok ps) db).1.alerts.length ∧
      (run_scan ⟨true, true⟩ crit (.error e) (.ok ps) db).1.total_fetched = ps.length ∧
      (run_scan ⟨true, true⟩ crit (.error e) (.ok ps) db).2.search_runs =
        db.search_runs ++
          [{ source := str "api", results_count := 0, new_matches_count := 0, error := some e },
           { source := str "gazette", results_count := ps.length,
             new_matches_count :=
               (run_scan ⟨true, true⟩ crit (.error e) (.ok ps) db).1.new_matches,
             error := none }] ∧
      (∀ p ∈ ps, (matcher_match crit p).isEmpty = false →
        patent_exists (run_scan ⟨true, true⟩ crit (.error e) (.ok ps) db).2
          p.patent_number = true)) ∧
    (∀ (crit : List SearchCriteriaConfig) (db : Db) (e : Str) (ps : List Patent),
      (run_scan ⟨true, true⟩ crit (.ok ps) (.error e) db).1.errors =
        [str "Gazette scrape failed: " ++ e] ∧
      (run_scan ⟨true, true⟩ crit (.ok ps) (.error e) db).1.new_matches =
        (run_scan ⟨true, true⟩ crit (.ok ps) (.error e) db).1.alerts.length ∧
      (run_scan ⟨true, true⟩ crit (.ok ps) (.error e) db).1.total_fetched = ps.length ∧
      (run_scan ⟨true, true⟩ crit (.ok ps) (.error e) db).2.search_runs =
        db.search_runs ++
          [{ source := str "api", results_count := ps.length,
             new_matches_count :=
               (run_scan ⟨true, true⟩ crit (.ok ps) (.error e) db).1.new_matches,
             error := none },
           { source := str "gazette", results_count := 0, new_matches_count := 0,
             error := some e }] ∧
      (∀ p ∈ ps, (matcher_match crit p).isEmpty = false →
        patent_exists (run_scan ⟨true, true⟩ crit (.ok ps) (.error e) db).2
          p.patent_number = true)) ∧
    (run_scan ⟨true, true⟩ critEx (.error (str "boom")) (.ok [pX, pY]) emptyDb).1.errors.length = 1 ∧
    (run_scan ⟨true, true⟩ critEx (.error (str "boom")) (.ok [pX, pY]) emptyDb).1.new_matches = 2 ∧
    (run_scan ⟨true, true⟩ critEx (.error (str "boom")) (.ok [pX, pY]) emptyDb).2.search_runs.length = 2 ∧
    (run_scan ⟨true, true⟩ critEx (.error (str "boom")) (.ok [pX, pY]) emptyDb).2.patents.length = 2 := by
  refine ⟨scanApiFails, scanGazetteFails, ?_, ?_, ?_, ?_⟩ <;> decide

/-- C1 witness: in the concrete partial-failure scan, the gazette candidate
`D100` (fetched by the succeeding source while the API source raised) ends up
tracked. -/
theorem C1_witness :
    patent_exists
      (run_scan ⟨true, true⟩ critEx (.error (str "boom")) (.ok [pX, pY]) emptyDb).2
      pX.patent_number = true :=
  (C1_partial_failure_isolation.1 critEx emptyDb (str "boom") [pX, pY]).2.2.2.2
    pX (by decide) (by decide)

/-- C8 (amended): whenever a parse tier yields a dict whose
`similarity_score` value `int()` can coerce (absent, bool, int, float or
numeric string), the result is sanitized — score clamped to [0, 100] (150
becomes 100), a risk level outside \x7bhigh, medium, low, none\x7d defaults to
`none`, a recommendation outside \x7bflag, monitor, dismiss\x7d defaults to
`monitor`, and a missing reasoning defaults to the empty string; but a dict
whose score value is a non-numeric string (or null/list/dict) instead
raises out of normalization. -/
theorem C8_sanitization :
    (∀ (fields : List (Str × JVal)) (n : Int),
      pyInt (dictGet fields (str "similarity_score") (.jint 0)) = .ok n →
      ∃ r, data_to_result (.jobj fields) = .ok r ∧
        r.similarity_score = max 0 (min 100 n) ∧
        0 ≤ r.similarity_score ∧ r.similarity_score ≤ 100 ∧
        (r.risk_level = str "high" ∨ r.risk_level = str "medium" ∨
          r.risk_level = str "low" ∨ r.risk_level = str "none") ∧
        (r.recommendation = str "flag" ∨ r.recommendation = str "monitor" ∨
          r.recommendation = str "dismiss") ∧
        r.reasoning = dictGet fields (str "reasoning") (.jstr [])) ∧
    data_to_result (.jobj [(str "similarity_score", .jint 150)]) =
      .ok { similarity_score := 100, risk_level := str "none", recommendation := str "monitor"
            reasoning := .jstr [] } ∧
    data_to_result (.jobj [(str "similarity_score", .jint 50),
        (str "risk_level", .jstr (str "catastrophic")),
        (str "recommendation", .jstr (str "escalate"))]) =
      .ok { similarity_score := 50, risk_level := str "none", recommendation := str "monitor"
            reasoning := .jstr [] } := by
  refine ⟨?_, rfl, rfl⟩
  intro fields n h
  simp only [data_to_result, h]
  refine ⟨_, rfl, rfl, ?_, ?_, ?_, ?_, rfl⟩
  · exact le_max_left 0 _
  · exact max_le (by norm_num) (min_le_left _ _)
  · dsimp only
    split
    · split_ifs <;> tauto
    · tauto
  · dsimp only
    split
    · split_ifs <;> tauto
    · tauto

/-- C9: when no tier yields structured data, `_parse_response` raises
nothing and returns the sentinel — score 0, risk `none`, recommendation
`monitor`, reasoning a bounded (≤ 200-character) excerpt of the raw text,
error tag `parse_failure` — while an upstream call failure is converted by
`analyze` into a sentinel tagged with the exception text, which for the
code's own retry-exhaustion failure differs from the parse tag. -/
theorem C9_parse_failure_sentinel :
    (∀ text : Str,
      loads (pyStrip text) = none →
      (∀ sub, findScoreObject text = some sub → loads sub = none) →
      (∀ sub, findBracePair text = some sub → loads sub = none) →
      parse_response text = .ok (parseFallback text)) ∧
    (∀ text : Str,
      (parseFallback text).similarity_score = 0 ∧
      (parseFallback text).risk_level = str "none" ∧
      (parseFallback text).recommendation = str "monitor" ∧
      (parseFallback text).error = some (str "parse_failure") ∧
      (parseFallback text).reasoning =
        .jstr (str "Could not parse AI response. Raw: " ++ text.take 200) ∧
      ∀ s, (parseFallback text).reasoning = .jstr s →
        s.length ≤ (str "Could not parse AI response. Raw: ").length + 200) ∧
    (∀ e : Str, analyze (.error e) =
      { similarity_score := 0, risk_level := str "none", recommendation := str "monitor"
        reasoning := .jstr (str "AI analysis failed: " ++ e), error := some e }) ∧
    (analyze (.error retriesExhaustedMsg)).error ≠ some (str "parse_failure") := by
  refine ⟨?_, ?_, ?_, by decide⟩
  · intro text h1 h2 h3
    rcases hf : findScoreObject text with _ | sub
    · rcases hb : findBracePair text with _ | sub
      · simp [parse_response, h1, hf, tier3, hb]
      · simp [parse_response, h1, hf, tier3, hb, h3 sub hb]
    · rcases hb : findBracePair text with _ | sub2
      · simp [parse_response, h1, hf, h2 sub hf, tier3, hb]
      · simp [parse_response, h1, hf, h2 sub hf, tier3, hb, h3 sub2 hb]
  · intro text
    refine ⟨rfl, rfl, rfl, rfl, rfl, ?_⟩
    intro s hs
    cases hs
    simp only [List.length_append]
    have := List.length_take_le 200 text
    omega
  · intro e
    rfl

/-- C8 counterexample: tier 1 obtains the JSON object
`\x7b"similarity_score": "n/a"\x7d`, yet normalization does not produce a
sanitized result — `int("n/a")` raises, and the exception escapes
`_parse_response`. -/
theorem C8_counterexample :
    parse_response cexResponse = .error (str "ValueError") ∧
    exceptIsOk (parse_response cexResponse) = false := ⟨rfl, rfl⟩

/-- C8 witness: the dict with score 150 is coercible and yields a sanitized
result. -/
theorem C8_witness :
    exceptIsOk (data_to_result (.jobj [(str "similarity_score", .jint 150)])) = true := by
  obtain ⟨r, hr, -⟩ := C8_sanitization.1 [(str "similarity_score", .jint 150)] 150 rfl
  rw [hr]
  rfl

/-- C9 witness: the unparseable response `"no json here"` yields the
sentinel. -/
theorem C9_witness :
    parse_response (str "no json here") = .ok (parseFallback (str "no json here")) :=
  C9_parse_failure_sentinel.1 (str "no json here") rfl
    (fun sub h => by
      rw [show findScoreObject (str "no json here") = none from rfl] at h
      cases h)
    (fun sub h => by
      rw [show findBracePair (str "no json here") = none from rfl] at h
      cases h)

end PatentMonitor
